import Mathlib

/-!
# Kaleidoscope front end: lexer and parser, shallowly embedded

A verification development for the Kaleidoscope language front end
(`src/main.cpp` and the two unnamed sibling sources `src/unnamed/part_000`,
`src/unnamed/part_001`).  Characters are modelled as C `int` values
(`getchar` results, `EOF = -1`), the `double NumVal` payload is modelled
exactly as a rational number (every numeric literal in scope is a finite
decimal, which the model represents without rounding), `std::map<char,int>`
is modelled as an association list with `std::map` find/insert semantics,
and the stateful lexer/parser globals are threaded through an explicit
state record.  Fallible parsing functions return `Except String α` carrying
the exact diagnostic strings of the source.  The mutually recursive parser
is made total with an explicit fuel argument; every theorem instantiates
fuel large enough that the fuel bound is never reached.

The two C++ sources disagree in exactly two places, both modelled here:
`GetTokPrecedence`'s guard clause (`main.cpp` has `if (isascii(CurTok))
return -1;`, `part_001` has `if (!isascii(CurTok)) return -1;`), and
`MainLoop`'s dispatch switch (`main.cpp` has no `tok_extern` case,
`part_001` does).  The parser definitions are written once over the choice
`GuardVariant` because every other parsing function is textually identical
in the two files.
-/

namespace Kaleidoscope

/-! ## C character classification (ASCII, "C" locale), characters as C ints -/

/-- C `isspace` on the ASCII range: space, \t, \n, \v, \f, \r. -/
def isspaceC (c : Int) : Bool :=
  c == 32 || c == 9 || c == 10 || c == 11 || c == 12 || c == 13

/-- C `isalpha` in the "C" locale: A-Z or a-z. -/
def isalphaC (c : Int) : Bool :=
  (65 ≤ c && c ≤ 90) || (97 ≤ c && c ≤ 122)

/-- C `isdigit`: 0-9. -/
def isdigitC (c : Int) : Bool :=
  48 ≤ c && c ≤ 57

/-- C `isalnum`: letter or digit. -/
def isalnumC (c : Int) : Bool :=
  isalphaC c || isdigitC c

/-- C `isascii`: 0 ≤ c ≤ 127. -/
def isasciiC (c : Int) : Bool :=
  0 ≤ c && c ≤ 127

/-- The condition of the numeric-literal lexer loop:
`isdigit(LastChar) || LastChar == '.'`. -/
def isnumC (c : Int) : Bool :=
  isdigitC c || c == 46

/-- Conversion of a C `int` to `char` (sign-extended low byte), as it happens
when `CurTok` is used as a `std::map<char,int>` key. -/
def charOf (t : Int) : Int :=
  (t + 128) % 256 - 128

/-! ## Tokens (`enum Token`; other tokens are the character itself) -/

def tok_eof : Int := -1
def tok_def : Int := -2
/-- Source name: `tok_extern`. -/
def tok_externKw : Int := -3
def tok_identifier : Int := -4
def tok_number : Int := -5

/-! ## `strtod`, restricted to the strings the lexer can build

`NumStr` consists of digits and `.` characters only, so the general
`strtod` grammar collapses to: an optional run of digits, optionally
followed by `.` and a second run of digits (the longest valid prefix);
everything after a second `.` is ignored, and a string with no digits in
its valid prefix (a lone `.`) converts to 0. -/

/-- Decimal value of a digit-character run. -/
def digitsToNat : List Int → Nat → Nat
  | [], acc => acc
  | c :: cs, acc => digitsToNat cs (acc * 10 + (c - 48).toNat)

/-- `strtod` on a digit/dot string: value of the longest valid numeric
prefix, as an exact rational. -/
def strtodQ (s : List Int) : ℚ :=
  let ip := s.takeWhile isdigitC
  let rest := s.drop ip.length
  let fp := match rest with
    | 46 :: r => r.takeWhile isdigitC
    | _ => []
  mkRat (digitsToNat ip 0 * 10 ^ fp.length + digitsToNat fp 0) (10 ^ fp.length)

/-! ## Lexer state and `getTok`

The lexer's mutable globals: the one-character lookahead `LastChar`
(initially `' '`), the remaining character stream (stdin), and the
out-of-band token payloads `IdentifierStr` and `NumVal`. -/

structure LexSt where
  lastChar : Int
  input : List Int
  identifierStr : String
  numVal : ℚ
deriving DecidableEq

/-- `getchar()`: next character of the stream, or `EOF` (-1). -/
def getcharC : List Int → Int × List Int
  | [] => (-1, [])
  | c :: cs => (c, cs)

/-- The whitespace-skipping loop: `while (isspace(LastChar)) LastChar = getchar();`.
Returns the first non-space `LastChar` and the remaining stream.  The fuel
only pays for characters actually skipped; `skipSpaces` supplies enough. -/
def skipSpacesF : Nat → Int → List Int → Int × List Int
  | 0, lc, cs => (lc, cs)
  | n + 1, lc, cs =>
    if isspaceC lc then
      match cs with
      | [] => (-1, [])
      | c :: cs2 => skipSpacesF n c cs2
    else (lc, cs)

def skipSpaces (lc : Int) (cs : List Int) : Int × List Int :=
  skipSpacesF (cs.length + 1) lc cs

/-- The identifier loop: starting from alphabetic `LastChar`, accumulate
`LastChar` and all following alphanumeric characters.  Returns the
accumulated characters, the terminating `LastChar`, and the rest. -/
def readIdent : Int → List Int → List Int × Int × List Int
  | lc, [] => ([lc], -1, [])
  | lc, c :: cs =>
    if isalnumC c then
      let (s, lc2, rest) := readIdent c cs
      (lc :: s, lc2, rest)
    else ([lc], c, cs)

/-- The numeric-literal loop:
`do { NumStr += LastChar; LastChar = getchar(); } while (isdigit(LastChar) || LastChar == '.');`. -/
def readNum : Int → List Int → List Int × Int × List Int
  | lc, [] => ([lc], -1, [])
  | lc, c :: cs =>
    if isnumC c then
      let (s, lc2, rest) := readNum c cs
      (lc :: s, lc2, rest)
    else ([lc], c, cs)

/-- The comment loop:
`do LastChar = getchar(); while (LastChar != EOF && LastChar != '\n' && LastChar != '\r');`. -/
def skipComment : List Int → Int × List Int
  | [] => (-1, [])
  | c :: cs => if c == -1 || c == 10 || c == 13 then (c, cs) else skipComment cs

/-- Build a Lean string from lexed character codes (for `IdentifierStr`). -/
def strOfInts (l : List Int) : String :=
  ⟨l.map fun c => Char.ofNat c.toNat⟩

/-- `getTok()`, with a fuel bound on the comment-recursion (`return getTok();`);
`getTok` below instantiates the fuel so that it can never run out. -/
def getTokF : Nat → LexSt → Int × LexSt
  | 0, st => (tok_eof, st)
  | fuel + 1, st =>
    match skipSpaces st.lastChar st.input with
    | (lc, cs) =>
      if isalphaC lc then
        match readIdent lc cs with
        | (s, lc2, cs2) =>
          let idStr := strOfInts s
          let st2 := { st with lastChar := lc2, input := cs2, identifierStr := idStr }
          if idStr = "def" then (tok_def, st2)
          else if idStr = "extern" then (tok_externKw, st2)
          else (tok_identifier, st2)
      else if isnumC lc then
        match readNum lc cs with
        | (s, lc2, cs2) =>
          (tok_number, { st with lastChar := lc2, input := cs2, numVal := strtodQ s })
      else if lc == 35 then
        match skipComment cs with
        | (lc2, cs2) =>
          if lc2 != -1 then getTokF fuel { st with lastChar := lc2, input := cs2 }
          else (tok_eof, { st with lastChar := lc2, input := cs2 })
      else if lc == -1 then (tok_eof, { st with lastChar := lc, input := cs })
      else
        (lc, { st with lastChar := (getcharC cs).1, input := (getcharC cs).2 })

/-- `getTok()`: each comment consumes at least one character, so
`input.length + 1` fuel is always enough. -/
def getTok (st : LexSt) : Int × LexSt :=
  getTokF (st.input.length + 1) st

/-! ## AST (`ExprAST` and its subclasses, `PrototypeAST`, `FunctionAST`)

The C++ virtual class hierarchy is a closed set of node kinds, modelled as
a sum type.  `BinaryExprAST` stores its operator as the `int` token value
(`int BinOp = CurTok;` narrowed to `char Op`, always an ASCII character
when a binary node is built). -/

inductive ExprAST
  | NumberExprAST (val : ℚ)
  | VariableExprAST (name : String)
  | BinaryExprAST (op : Int) (lhs rhs : ExprAST)
  | CallExprAST (callee : String) (args : List ExprAST)

structure PrototypeAST where
  name : String
  args : List String

structure FunctionAST where
  proto : PrototypeAST
  body : ExprAST

/-! ## The precedence table (`static std::map<char, int> BinopPrecedence`)

Modelled as an association list with `std::map` observable semantics:
`mapFind` is `map::find`, `mapSet` is assignment through `operator[]`, and
`mapIndex` is a read through `operator[]`, which value-initializes (to 0)
and inserts a missing key. -/

abbrev Table := List (Int × Int)

def mapFind : Table → Int → Option Int
  | [], _ => none
  | (k, v) :: m, k2 => if k = k2 then some v else mapFind m k2

def mapSet : Table → Int → Int → Table
  | [], k, v => [(k, v)]
  | (k1, v1) :: m, k, v => if k1 = k then (k, v) :: m else (k1, v1) :: mapSet m k v

/-- `std::map::operator[]` read: returns the mapped value, default-inserting
`0` when the key is absent. -/
def mapIndex (m : Table) (k : Int) : Int × Table :=
  match mapFind m k with
  | some v => (v, m)
  | none => (0, m ++ [(k, 0)])

/-- The table built by `main()`:
`BinopPrecedence['<'] = 10; ['+'] = 20; ['-'] = 20; ['*'] = 40;`. -/
def defaultTable : Table :=
  mapSet (mapSet (mapSet (mapSet [] 60 10) 43 20) 45 20) 42 40

/-- The two observed guard clauses of `GetTokPrecedence`: `main.cpp` tests
`isascii(CurTok)`, `part_001` tests `!isascii(CurTok)`. -/
inductive GuardVariant
  | mainCpp
  | part001
deriving DecidableEq

/-- `GetTokPrecedence()` as in `src/main.cpp` (lines 234-242):
`if (isascii(CurTok)) return -1;` then
`int TokPrec = BinopPrecedence[CurTok]; if (TokPrec <= 0) return -1;`.
Returns the precedence together with the table as left by `operator[]`. -/
def GetTokPrecedenceMain (tbl : Table) (curTok : Int) : Int × Table :=
  if isasciiC curTok then (-1, tbl)
  else
    let (tokPrec, tbl2) := mapIndex tbl (charOf curTok)
    if tokPrec ≤ 0 then (-1, tbl2) else (tokPrec, tbl2)

/-- `GetTokPrecedence()` as in `src/unnamed/part_001` (lines 259-267):
`if (!isascii(CurTok)) return -1;` then the same table lookup. -/
def GetTokPrecedenceP1 (tbl : Table) (curTok : Int) : Int × Table :=
  if !isasciiC curTok then (-1, tbl)
  else
    let (tokPrec, tbl2) := mapIndex tbl (charOf curTok)
    if tokPrec ≤ 0 then (-1, tbl2) else (tokPrec, tbl2)

def GetTokPrecedence : GuardVariant → Table → Int → Int × Table
  | .mainCpp => GetTokPrecedenceMain
  | .part001 => GetTokPrecedenceP1

/-! ## Parser state and token cursor -/

/-- The parser's mutable globals: the lexer state, the current token
`CurTok` (zero-initialized), and `BinopPrecedence` (threaded because
`operator[]` can insert into it). -/
structure PSt where
  lex : LexSt
  curTok : Int
  table : Table

/-- `static int getNextToken() { return CurTok = getTok(); }`. -/
def getNextToken (st : PSt) : Int × PSt :=
  let (t, lx) := getTok st.lex
  (t, { st with lex := lx, curTok := t })

/-! ## Recursive-descent parser

Each function returns `Except String α` (`.error` for the C++ `nullptr`
plus the `LogError` diagnostic) together with the parser state.  The fuel
argument decreases on every nested parser call; the theorems below always
supply enough fuel. -/

/-- `ParseNumberExpr()`: build a `NumberExprAST` from `NumVal`, advance. -/
def ParseNumberExpr (st : PSt) : Except String ExprAST × PSt :=
  let result := ExprAST.NumberExprAST st.lex.numVal
  (.ok result, (getNextToken st).2)

mutual

/-- `ParseExpression()`: one primary as initial LHS, then the precedence
climbing loop with minimum precedence 0. -/
def ParseExpression (v : GuardVariant) : Nat → PSt → Except String ExprAST × PSt
  | 0, st => (.error "out of fuel", st)
  | n + 1, st =>
    match ParsePrimary v n st with
    | (.error e, st2) => (.error e, st2)
    | (.ok lhs, st2) => ParseBinOpRHS v n 0 lhs st2

/-- `ParsePrimary()`: dispatch on `CurTok`. -/
def ParsePrimary (v : GuardVariant) : Nat → PSt → Except String ExprAST × PSt
  | 0, st => (.error "out of fuel", st)
  | n + 1, st =>
    if st.curTok = tok_identifier then ParseIdentifierExpr v n st
    else if st.curTok = tok_number then (ParseNumberExpr st)
    else if st.curTok = 40 then ParseParenExpr v n st
    else (.error "unknown token, expecting expression", st)

/-- `ParseParenExpr()`: eat `(`, parse an expression, require `)`, eat it. -/
def ParseParenExpr (v : GuardVariant) : Nat → PSt → Except String ExprAST × PSt
  | 0, st => (.error "out of fuel", st)
  | n + 1, st =>
    let st2 := (getNextToken st).2
    match ParseExpression v n st2 with
    | (.error e, st3) => (.error e, st3)
    | (.ok inner, st3) =>
      if st3.curTok ≠ 41 then (.error "expected ')'", st3)
      else (.ok inner, (getNextToken st3).2)

/-- `ParseIdentifierExpr()`: a variable reference, or a call with a
parenthesized comma-separated argument list. -/
def ParseIdentifierExpr (v : GuardVariant) : Nat → PSt → Except String ExprAST × PSt
  | 0, st => (.error "out of fuel", st)
  | n + 1, st =>
    let idName := st.lex.identifierStr
    let st2 := (getNextToken st).2
    if st2.curTok ≠ 40 then (.ok (.VariableExprAST idName), st2)
    else
      let st3 := (getNextToken st2).2
      match (if st3.curTok ≠ 41 then ParseCallArgs v n st3 [] else (.ok [], st3)) with
      | (.error e, st4) => (.error e, st4)
      | (.ok args, st4) => (.ok (.CallExprAST idName args), (getNextToken st4).2)

/-- The `while (true)` argument loop of `ParseIdentifierExpr`: parse one
expression, append it, then stop at `)`, continue past `,`, or fail. -/
def ParseCallArgs (v : GuardVariant) : Nat → PSt → List ExprAST → Except String (List ExprAST) × PSt
  | 0, st, _ => (.error "out of fuel", st)
  | n + 1, st, acc =>
    match ParseExpression v n st with
    | (.error e, st2) => (.error e, st2)
    | (.ok arg, st2) =>
      let acc2 := acc ++ [arg]
      if st2.curTok = 41 then (.ok acc2, st2)
      else if st2.curTok ≠ 44 then (.error "Expected ')' or ',' in argument list", st2)
      else ParseCallArgs v n ((getNextToken st2).2) acc2

/-- `ParseBinOpRHS(ExprPrec, LHS)`: the precedence climbing loop.  The
`while (true)` iteration is the tail-recursive call at the same `ExprPrec`. -/
def ParseBinOpRHS (v : GuardVariant) : Nat → Int → ExprAST → PSt → Except String ExprAST × PSt
  | 0, _, _, st => (.error "out of fuel", st)
  | n + 1, exprPrec, lhs, st =>
    let (tokPrec, tbl2) := GetTokPrecedence v st.table st.curTok
    let st2 := { st with table := tbl2 }
    if tokPrec < exprPrec then (.ok lhs, st2)
    else
      let binOp := st2.curTok
      let st3 := (getNextToken st2).2
      match ParsePrimary v n st3 with
      | (.error e, st4) => (.error e, st4)
      | (.ok rhs, st4) =>
        let (nextPrec, tbl3) := GetTokPrecedence v st4.table st4.curTok
        let st5 := { st4 with table := tbl3 }
        if tokPrec < nextPrec then
          match ParseBinOpRHS v n (tokPrec + 1) rhs st5 with
          | (.error e, st6) => (.error e, st6)
          | (.ok rhs2, st6) =>
            ParseBinOpRHS v n exprPrec (.BinaryExprAST binOp lhs rhs2) st6
        else
          ParseBinOpRHS v n exprPrec (.BinaryExprAST binOp lhs rhs) st5

end

/-! ## Prototypes, definitions, externs, top-level expressions -/

/-- The parameter-collection loop of `ParsePrototype`:
`while (getNextToken() == tok_identifier) ArgNames.push_back(IdentifierStr);`.
The fuel only bounds the loop; `ParsePrototype` supplies enough. -/
def ParsePrototypeArgs : Nat → PSt → List String → List String × PSt
  | 0, st, acc => (acc, st)
  | n + 1, st, acc =>
    let (t, st2) := getNextToken st
    if t = tok_identifier then ParsePrototypeArgs n st2 (acc ++ [st2.lex.identifierStr])
    else (acc, st2)

/-- `ParsePrototype()`: function name identifier, `(`, zero or more
identifier parameters, `)`. -/
def ParsePrototype (st : PSt) : Except String PrototypeAST × PSt :=
  if st.curTok ≠ tok_identifier then (.error "Expected function name in prototype", st)
  else
    let fnName := st.lex.identifierStr
    let st2 := (getNextToken st).2
    if st2.curTok ≠ 40 then (.error "Expected '(' in prototype", st2)
    else
      let (argNames, st3) := ParsePrototypeArgs (st2.lex.input.length + 2) st2 []
      if st3.curTok ≠ 41 then (.error "Expected ')' in prototype", st3)
      else (.ok ⟨fnName, argNames⟩, (getNextToken st3).2)

/-- `ParseDefinition()`: eat `def`, parse a prototype, then the body. -/
def ParseDefinition (v : GuardVariant) (fuel : Nat) (st : PSt) :
    Except String FunctionAST × PSt :=
  let st2 := (getNextToken st).2
  match ParsePrototype st2 with
  | (.error e, st3) => (.error e, st3)
  | (.ok proto, st3) =>
    match ParseExpression v fuel st3 with
    | (.error e, st4) => (.error e, st4)
    | (.ok body, st4) => (.ok ⟨proto, body⟩, st4)

/-- `ParseExtern()`: eat `extern`, parse and return a bare prototype. -/
def ParseExternDecl (st : PSt) : Except String PrototypeAST × PSt :=
  ParsePrototype (getNextToken st).2

/-- `ParseTopLevelExpr()`: parse an expression and wrap it in an anonymous
`FunctionAST` (empty prototype name, no parameters). -/
def ParseTopLevelExpr (v : GuardVariant) (fuel : Nat) (st : PSt) :
    Except String FunctionAST × PSt :=
  match ParseExpression v fuel st with
  | (.error e, st2) => (.error e, st2)
  | (.ok e, st2) => (.ok ⟨⟨"", []⟩, e⟩, st2)

/-! ## Driver dispatch (`MainLoop` switch and the `Handle*` wrappers)

One iteration of `MainLoop`, exposing which parse was attempted and its
result.  On failure the `Handle*` wrappers skip one token for error
recovery, as in the source. -/

inductive EntityResult
  | eof
  | semi
  | defn (r : Except String FunctionAST)
  | ext (r : Except String PrototypeAST)
  | topLevel (r : Except String FunctionAST)

def HandleDefinition (v : GuardVariant) (fuel : Nat) (st : PSt) : EntityResult × PSt :=
  match ParseDefinition v fuel st with
  | (.ok f, st2) => (.defn (.ok f), st2)
  | (.error e, st2) => (.defn (.error e), (getNextToken st2).2)

def HandleExternDecl (st : PSt) : EntityResult × PSt :=
  match ParseExternDecl st with
  | (.ok p, st2) => (.ext (.ok p), st2)
  | (.error e, st2) => (.ext (.error e), (getNextToken st2).2)

def HandleTopLevelExpression (v : GuardVariant) (fuel : Nat) (st : PSt) : EntityResult × PSt :=
  match ParseTopLevelExpr v fuel st with
  | (.ok f, st2) => (.topLevel (.ok f), st2)
  | (.error e, st2) => (.topLevel (.error e), (getNextToken st2).2)

/-- One dispatch step of `MainLoop()`.  `src/main.cpp` (lines 357-374)
switches on `tok_eof`, `';'`, `tok_def` and default only;
`src/unnamed/part_001` (lines 522-542) additionally has the `tok_extern`
case. -/
def MainLoopStep (v : GuardVariant) (fuel : Nat) (st : PSt) : EntityResult × PSt :=
  match v with
  | .mainCpp =>
    if st.curTok = tok_eof then (.eof, st)
    else if st.curTok = 59 then (.semi, (getNextToken st).2)
    else if st.curTok = tok_def then HandleDefinition v fuel st
    else HandleTopLevelExpression v fuel st
  | .part001 =>
    if st.curTok = tok_eof then (.eof, st)
    else if st.curTok = 59 then (.semi, (getNextToken st).2)
    else if st.curTok = tok_def then HandleDefinition v fuel st
    else if st.curTok = tok_externKw then HandleExternDecl st
    else HandleTopLevelExpression v fuel st

/-! ## Whole-input entry points -/

/-- Characters of a source string as C ints. -/
def chars (s : String) : List Int :=
  s.toList.map fun c => (c.toNat : Int)

/-- Fresh global state on a given input: `LastChar = ' '`, `CurTok = 0`,
and the precedence table as filled by `main()`. -/
def initPSt (input : List Int) : PSt :=
  { lex := { lastChar := 32, input := input, identifierStr := "", numVal := 0 }
    curTok := 0
    table := defaultTable }

/-- `main()` primes `CurTok` with one `getNextToken()` before `MainLoop`;
then one dispatch step parses the first top-level entity. -/
def runEntity (v : GuardVariant) (fuel : Nat) (input : List Int) : EntityResult × PSt :=
  MainLoopStep v fuel (getNextToken (initPSt input)).2

/-- Prime `CurTok`, then parse one expression (`ParseExpression`). -/
def runExpr (v : GuardVariant) (fuel : Nat) (input : List Int) :
    Except String ExprAST × PSt :=
  ParseExpression v fuel (getNextToken (initPSt input)).2

/-! ## General lemmas about the lexer and the precedence table -/

/-- A non-space pending character is not skipped. -/
lemma skipSpaces_no_skip (lc : Int) (cs : List Int) (h : isspaceC lc = false) :
    skipSpaces lc cs = (lc, cs) := by
  simp [skipSpaces, skipSpacesF, h]

/-- The numeric-literal loop consumes exactly a maximal digit/dot run:
with `run` all numeric and the next character (or `EOF`) not numeric, it
accumulates `lc :: run` and leaves the first non-numeric character pending. -/
lemma readNum_run (run rest : List Int) (lc : Int)
    (hrun : ∀ c ∈ run, isnumC c = true)
    (hrest : isnumC (rest.headD (-1)) = false) :
    readNum lc (run ++ rest) = (lc :: run, rest.headD (-1), rest.tail) := by
  induction run generalizing lc with
  | nil =>
    cases rest with
    | nil => simp [readNum]
    | cons r rs => simp only [List.headD] at hrest; simp [readNum, hrest]
  | cons c cs ih =>
    have hc : isnumC c = true := hrun c (by simp)
    have ih2 := ih c (fun x hx => hrun x (by simp [hx]))
    simp [readNum, hc, ih2]

lemma isnum_not_space (c : Int) (h : isnumC c = true) : isspaceC c = false := by
  simp [isnumC, isdigitC, isspaceC] at *
  omega

lemma isnum_not_alpha (c : Int) (h : isnumC c = true) : isalphaC c = false := by
  simp [isnumC, isdigitC, isalphaC] at *
  omega

/-- `mapFind` through an append of one zero-valued entry. -/
lemma mapFind_append_zero (m : Table) (k0 k : Int) :
    mapFind (m ++ [(k0, 0)]) k
      = (match mapFind m k with
         | some x => some x
         | none => if k0 = k then some 0 else none) := by
  induction m with
  | nil => simp [mapFind]
  | cons a m ih =>
    obtain ⟨k1, v1⟩ := a
    by_cases h : k1 = k <;> simp [mapFind, h, ih]

/-- An `operator[]` read either leaves the map unchanged or appends one
zero-valued entry for the missing key. -/
lemma mapIndex_snd (m : Table) (k : Int) :
    (mapIndex m k).2 = m ∨ (mapIndex m k).2 = m ++ [(k, 0)] := by
  unfold mapIndex
  rcases h : mapFind m k <;> simp [h]

/-- Either guard variant of `GetTokPrecedence` leaves the table unchanged
or default-inserts the single zero-valued entry for the looked-up key. -/
lemma GetTokPrecedence_snd (v : GuardVariant) (tbl : Table) (t : Int) :
    (GetTokPrecedence v tbl t).2 = tbl ∨
    (GetTokPrecedence v tbl t).2 = tbl ++ [(charOf t, 0)] := by
  have hm := mapIndex_snd tbl (charOf t)
  cases v <;>
    simp only [GetTokPrecedence, GetTokPrecedenceMain, GetTokPrecedenceP1] <;>
    rcases hmi : mapIndex tbl (charOf t) with ⟨p, t2⟩ <;>
    rw [hmi] at hm <;>
    split_ifs <;>
    simp_all

/-! ## Claim theorems -/

/-- C1: the claim states that `GetTokPrecedence` returns the registered
positive precedence of a table-registered operator character and -1 for
every other token, with the default table giving 20 to `'+'` (43), 20 to
`'-'` (45), 40 to `'*'` (42) and 10 to `'<'` (60).  The `part_001` variant
behaves exactly so, but `main.cpp`'s inverted guard (`if (isascii(CurTok))
return -1;`) makes every ASCII character — including all four registered
operators — yield -1, contradicting the claim on, e.g., `'+'`. -/
theorem C1_precedence_lookup_divergence :
    (GetTokPrecedence .mainCpp defaultTable 43).1 = -1 ∧
    (GetTokPrecedence .part001 defaultTable 43).1 = 20 ∧
    (GetTokPrecedence .mainCpp defaultTable 45).1 = -1 ∧
    (GetTokPrecedence .part001 defaultTable 45).1 = 20 ∧
    (GetTokPrecedence .mainCpp defaultTable 42).1 = -1 ∧
    (GetTokPrecedence .part001 defaultTable 42).1 = 40 ∧
    (GetTokPrecedence .mainCpp defaultTable 60).1 = -1 ∧
    (GetTokPrecedence .part001 defaultTable 60).1 = 10 ∧
    (GetTokPrecedence .part001 defaultTable 40).1 = -1 ∧
    (GetTokPrecedence .part001 defaultTable 59).1 = -1 ∧
    (GetTokPrecedence .part001 defaultTable tok_eof).1 = -1 ∧
    (GetTokPrecedence .part001 defaultTable tok_def).1 = -1 ∧
    (GetTokPrecedence .part001 defaultTable tok_identifier).1 = -1 := by
  decide

/-- C2: the claim states that parsing `"1+2*3"` yields
`BinaryOp('+', 1, BinaryOp('*', 2, 3))`.  This holds for the `part_001`
parser; under `main.cpp`'s inverted precedence guard the climb loop sees
precedence -1 at `'+'` and `ParseExpression` returns just
`NumberLiteral(1)`, leaving `'+'` (43) as the unconsumed current token. -/
theorem C2_precedence_grouping_divergence :
    (runExpr .part001 99 (chars "1+2*3")).1
      = .ok (.BinaryExprAST 43 (.NumberExprAST 1)
          (.BinaryExprAST 42 (.NumberExprAST 2) (.NumberExprAST 3))) ∧
    (runExpr .mainCpp 99 (chars "1+2*3")).1 = .ok (.NumberExprAST 1) ∧
    (runExpr .mainCpp 99 (chars "1+2*3")).2.curTok = 43 :=
  ⟨rfl, rfl, rfl⟩

/-- C3: the claim states that parsing `"1-2-3"` yields the left-associated
`BinaryOp('-', BinaryOp('-', 1, 2), 3)`.  This holds for the `part_001`
parser; under `main.cpp`'s inverted precedence guard the parse returns just
`NumberLiteral(1)`, with `'-'` (45) left as the current token. -/
theorem C3_left_assoc_divergence :
    (runExpr .part001 99 (chars "1-2-3")).1
      = .ok (.BinaryExprAST 45
          (.BinaryExprAST 45 (.NumberExprAST 1) (.NumberExprAST 2))
          (.NumberExprAST 3)) ∧
    (runExpr .mainCpp 99 (chars "1-2-3")).1 = .ok (.NumberExprAST 1) ∧
    (runExpr .mainCpp 99 (chars "1-2-3")).2.curTok = 45 :=
  ⟨rfl, rfl, rfl⟩

/-- C4: the claim states that an `extern` keyword at entity-level dispatch
is parsed as a prototype-only declaration.  `part_001`'s `MainLoop` does
exactly that; `main.cpp`'s `MainLoop` has no `tok_extern` case, so the
keyword falls to the default (bare expression) handler, where
`ParsePrimary` rejects it with "unknown token, expecting expression". -/
theorem C4_extern_dispatch_divergence :
    (runEntity .part001 99 (chars "extern sin(x)")).1
      = .ext (.ok ⟨"sin", ["x"]⟩) ∧
    (runEntity .mainCpp 99 (chars "extern sin(x)")).1
      = .topLevel (.error "unknown token, expecting expression") :=
  ⟨rfl, rfl⟩

/-- C5 counterexample: the claim states that no precedence lookup adds,
removes, or changes any entry of `BinopPrecedence`.  But the lookup uses
`std::map::operator[]`, which default-inserts a missing key: looking up
`'('` (40) in the default table (with the `part_001` guard) adds the entry
`(40, 0)`, and looking up `tok_def` with `main.cpp`'s guard likewise
inserts a zero entry for key -2. -/
theorem C5_lookup_mutates_table :
    (GetTokPrecedence .part001 defaultTable 40).2 ≠ defaultTable ∧
    mapFind defaultTable 40 = none ∧
    mapFind (GetTokPrecedence .part001 defaultTable 40).2 40 = some 0 ∧
    (GetTokPrecedence .mainCpp defaultTable tok_def).2 ≠ defaultTable := by
  decide

/-- C5 (amended): a precedence lookup never removes or changes an existing
entry of the table, and the only mutation it can perform is
default-inserting a zero-valued entry (meaning "not an operator") for a
key that was absent; every registered precedence is preserved verbatim. -/
theorem C5_lookup_preserves_entries (v : GuardVariant) (tbl : Table) (t : Int) :
    (∀ k x, mapFind tbl k = some x → mapFind (GetTokPrecedence v tbl t).2 k = some x) ∧
    (∀ k, mapFind tbl k = none →
      mapFind (GetTokPrecedence v tbl t).2 k = none ∨
      mapFind (GetTokPrecedence v tbl t).2 k = some 0) := by
  rcases GetTokPrecedence_snd v tbl t with h | h <;> rw [h]
  · exact ⟨fun k x hk => hk, fun k hk => Or.inl hk⟩
  · constructor
    · intro k x hk
      rw [mapFind_append_zero]
      simp [hk]
    · intro k hk
      rw [mapFind_append_zero]
      simp only [hk]
      by_cases hh : charOf t = k <;> simp [hh]

/-- C5 witness: instantiating the preservation theorem at the default
table, a lookup of `'('` (40), and the registered key `'+'` (43). -/
theorem C5_lookup_preserves_entries_witness :
    mapFind defaultTable 43 = some 20 ∧
    mapFind (GetTokPrecedence .part001 defaultTable 40).2 43 = some 20 :=
  ⟨by decide, (C5_lookup_preserves_entries .part001 defaultTable 40).1 43 20 (by decide)⟩

/-- C6 counterexample: the claim states that parsing `"foo(1,"` fails with
a diagnostic naming the expected `')'` or `','`.  It does fail, but the
`','` is consumed and end-of-input is then reached inside the next argument
expression, so the diagnostic actually produced is `ParsePrimary`'s
"unknown token, expecting expression", not the argument-list message. -/
theorem C6_diagnostic_differs :
    (runExpr .part001 99 (chars "foo(1,")).1
      = .error "unknown token, expecting expression" ∧
    (runExpr .mainCpp 99 (chars "foo(1,")).1
      = .error "unknown token, expecting expression" ∧
    "unknown token, expecting expression" ≠ "Expected ')' or ',' in argument list" :=
  ⟨rfl, rfl, by decide⟩

/-- C6 (amended): parsing `"foo(1,"` fails — with both guard variants —
returning the no-result signal with diagnostic "unknown token, expecting
expression" (end-of-input reached after the `','` was consumed), and no
partial `Call` node escapes: the result carries no AST at all. -/
theorem C6_parse_foo_open_fails :
    (runExpr .part001 99 (chars "foo(1,")).1
      = .error "unknown token, expecting expression" ∧
    (runExpr .mainCpp 99 (chars "foo(1,")).1
      = .error "unknown token, expecting expression" :=
  ⟨rfl, rfl⟩

/-- C7: the claim states that parsing `"def foo(a b) a+b"` yields the
prototype `foo(a, b)` with body `BinaryOp('+', a, b)`.  The prototype part
holds in both variants, and the whole claim holds for `part_001`; under
`main.cpp`'s inverted precedence guard the body parse stops after
`VariableRef("a")`, yielding a definition with the wrong body and leaving
`'+'` (43) unconsumed. -/
theorem C7_parse_def_foo_divergence :
    (runEntity .part001 99 (chars "def foo(a b) a+b")).1
      = .defn (.ok ⟨⟨"foo", ["a", "b"]⟩,
          .BinaryExprAST 43 (.VariableExprAST "a") (.VariableExprAST "b")⟩) ∧
    (runEntity .mainCpp 99 (chars "def foo(a b) a+b")).1
      = .defn (.ok ⟨⟨"foo", ["a", "b"]⟩, .VariableExprAST "a"⟩) ∧
    (runEntity .mainCpp 99 (chars "def foo(a b) a+b")).2.curTok = 43 :=
  ⟨rfl, rfl, rfl⟩

/-- C8: parsing `"foo(1,2,3)"` as a bare top-level entity yields
`Call{callee: "foo", args: [1, 2, 3]}` in left-to-right order, wrapped in a
`FunctionDef` whose prototype has the empty name and no parameters — under
both guard variants (no binary operator is involved). -/
theorem C8_call_wrapped_anonymous :
    (runEntity .part001 99 (chars "foo(1,2,3)")).1
      = .topLevel (.ok ⟨⟨"", []⟩, .CallExprAST "foo"
          [.NumberExprAST 1, .NumberExprAST 2, .NumberExprAST 3]⟩) ∧
    (runEntity .mainCpp 99 (chars "foo(1,2,3)")).1
      = .topLevel (.ok ⟨⟨"", []⟩, .CallExprAST "foo"
          [.NumberExprAST 1, .NumberExprAST 2, .NumberExprAST 3]⟩) :=
  ⟨rfl, rfl⟩

/-- C9: for every maximal run of digit/dot characters at the lexer's
cursor (pending character `d`, then `run`, with the following character —
or end-of-input — not a digit or dot), `getTok` consumes the entire run,
emits a single `tok_number` token whose `NumVal` is the `strtod`
conversion of the whole run, and leaves the first character after the run
pending. -/
theorem C9_lexer_number_run (d : Int) (run rest : List Int) (idS : String) (q : ℚ)
    (hd : isnumC d = true) (hrun : ∀ c ∈ run, isnumC c = true)
    (hrest : isnumC (rest.headD (-1)) = false) :
    getTok ⟨d, run ++ rest, idS, q⟩
      = (tok_number, ⟨rest.headD (-1), rest.tail, idS, strtodQ (d :: run)⟩) := by
  have h1 := skipSpaces_no_skip d (run ++ rest) (isnum_not_space d hd)
  have h2 := readNum_run run rest d hrun hrest
  simp only [getTok, getTokF, h1, h2, isnum_not_alpha d hd, hd]
  simp

/-- C9 witness: lexing `"1.2.3"` consumes the whole run and yields one
number token of value 1.2 (the longest valid prefix of the run), and a
lone `"."` yields a number token of value 0. -/
theorem C9_lexer_number_run_witness :
    getTok ⟨49, [46, 50, 46, 51] ++ [], "", 0⟩
      = (tok_number, ⟨(-1 : Int), [], "", 1.2⟩) ∧
    getTok ⟨46, ([] : List Int) ++ [], "", 0⟩
      = (tok_number, ⟨(-1 : Int), [], "", 0⟩) := by
  constructor
  · rw [C9_lexer_number_run 49 [46, 50, 46, 51] [] "" 0 (by decide) (by decide) (by decide)]
    rw [show strtodQ (49 :: [46, 50, 46, 51]) = mkRat 12 10 from rfl, Rat.mkRat_eq_div]
    norm_num
  · rw [C9_lexer_number_run 46 [] [] "" 0 (by decide) (by decide) (by decide)]
    rfl

/-- C10: whatever follows, an input beginning `"def f(a,"` — a `','`
between prototype parameter identifiers — makes `ParsePrototype` stop
collecting at the `','` and fail with "Expected ')' in prototype", so the
enclosing `ParseDefinition` (and the entity-level dispatch) also returns
that failure, under both guard variants. -/
theorem C10_prototype_comma_fails (v : GuardVariant) (rest : List Int) :
    (runEntity v 99 (chars "def f(a," ++ rest)).1
      = .defn (.error "Expected ')' in prototype") := by
  cases v <;> rfl

end Kaleidoscope
